import Mathlib

/-!
Verification development for the resilient execution engine of the
BNB sniper/bundler bot: error classification, retry with backoff,
circuit breaking, gas-price estimation, transaction monitoring and
bundle orchestration, shallowly embedded from the JavaScript source
(`src/utils/logger.js`, which concatenates the logger/monitor/gas file
and the error-handler/retry file, and `src/unnamed/part_000`, the
`OptimizedBundlerBot` orchestrator).
-/

namespace Bundler

/-! ### JavaScript error values

A JS error as consumed by `ErrorHandler.classifyError`: a message string
and an optional `code` that in practice is either one of the string tags
(`'NETWORK_ERROR'`, `'TIMEOUT'`, `'RATE_LIMITED'`) or an HTTP status
number.  In JS, `code >= 500` on a non-numeric string code evaluates to
false (NaN comparison); the model assumes string codes are non-numeric,
which holds for all tags the classifier compares against. -/

inductive JsCode where
  | str : String → JsCode
  | num : Int → JsCode
deriving DecidableEq

structure JsError where
  message : String
  code : Option JsCode := none
deriving DecidableEq

/-- Embeds `error.message?.toLowerCase()` as a character list (an absent message
is modelled as the empty string, matching `?? ''`-style coercion). -/
def lowerChars (s : String) : List Char := s.data.map Char.toLower

/-- JS `String.prototype.includes`: `msg.includes(pat)`. -/
def includes (msg : List Char) (pat : String) : Bool :=
  msg.tails.any (fun t => pat.data.isPrefixOf t)

/-- Embeds `error.code === tag` for a string tag. -/
def codeEq (c : Option JsCode) (s : String) : Bool :=
  c = some (JsCode.str s)

/-- Embeds `error.code >= 500` under JS coercion, for numeric codes. -/
def codeGe500 : Option JsCode → Bool
  | some (JsCode.num n) => 500 ≤ n
  | _ => false

/-- The closed error taxonomy of `ErrorHandler` (`this.errorTypes` keys
plus the `UNKNOWN_ERROR` fallback). -/
inductive ErrorKind where
  | NETWORK_ERROR
  | TIMEOUT
  | RATE_LIMITED
  | SERVER_ERROR
  | GAS_ESTIMATION_FAILED
  | INSUFFICIENT_FUNDS
  | TRANSACTION_REVERTED
  | NONCE_TOO_LOW
  | GAS_PRICE_TOO_LOW
  | CONTRACT_ERROR
  | VALIDATION_ERROR
  | CONFIGURATION_ERROR
  | UNKNOWN_ERROR
deriving DecidableEq

/-- Embeds `ErrorHandler.classifyError`, transcribed clause by clause from the
source: eleven category checks in fixed order, each an `if` whose
condition disjoins a code-equality test (where present) with that
category's message-substring tests; `UNKNOWN_ERROR` when nothing
matches. -/
def classifyError (error : JsError) : ErrorKind :=
  let message := lowerChars error.message
  let code := error.code
  if codeEq code "NETWORK_ERROR" || includes message "network" || includes message "connection" then
    ErrorKind.NETWORK_ERROR
  else if codeEq code "TIMEOUT" || includes message "timeout" then
    ErrorKind.TIMEOUT
  else if codeEq code "RATE_LIMITED" || includes message "rate limit" || includes message "too many requests" then
    ErrorKind.RATE_LIMITED
  else if codeGe500 code || includes message "server error" || includes message "internal error" then
    ErrorKind.SERVER_ERROR
  else if includes message "gas estimation" || includes message "cannot estimate gas" then
    ErrorKind.GAS_ESTIMATION_FAILED
  else if includes message "insufficient funds" || includes message "insufficient balance" then
    ErrorKind.INSUFFICIENT_FUNDS
  else if includes message "revert" || includes message "execution reverted" then
    ErrorKind.TRANSACTION_REVERTED
  else if includes message "nonce too low" || includes message "nonce" then
    ErrorKind.NONCE_TOO_LOW
  else if includes message "gas price too low" || includes message "gas price" then
    ErrorKind.GAS_PRICE_TOO_LOW
  else if includes message "contract" || includes message "call exception" then
    ErrorKind.CONTRACT_ERROR
  else if includes message "invalid" || includes message "validation" then
    ErrorKind.VALIDATION_ERROR
  else
    ErrorKind.UNKNOWN_ERROR

/-- Embeds `ErrorHandler.isRetryable`: membership in the fixed retryable set. -/
def isRetryable (errorType : ErrorKind) : Bool :=
  decide (errorType ∈ [ErrorKind.NETWORK_ERROR, ErrorKind.TIMEOUT,
    ErrorKind.RATE_LIMITED, ErrorKind.SERVER_ERROR,
    ErrorKind.GAS_ESTIMATION_FAILED, ErrorKind.NONCE_TOO_LOW,
    ErrorKind.GAS_PRICE_TOO_LOW])

/-! ### Rule-list view of the classifier

The spec describes classification as an ordered list of
(predicate, kind) rules evaluated top to bottom, first match wins.  The
following mirrors the source's actual rule order: within each category
the code-equality disjunct comes first, but all of a category's rules
precede every later category's rules. -/

inductive ClassifyRule where
  | byCode (tag : String) (kind : ErrorKind)
  | byCodeGe500 (kind : ErrorKind)
  | byMessage (pat : String) (kind : ErrorKind)

def ruleMatches (error : JsError) : ClassifyRule → Bool
  | ClassifyRule.byCode tag _ => codeEq error.code tag
  | ClassifyRule.byCodeGe500 _ => codeGe500 error.code
  | ClassifyRule.byMessage pat _ => includes (lowerChars error.message) pat

def ruleKind : ClassifyRule → ErrorKind
  | ClassifyRule.byCode _ k => k
  | ClassifyRule.byCodeGe500 k => k
  | ClassifyRule.byMessage _ k => k

/-- The source's classification rules in evaluation order. -/
def classifyRules : List ClassifyRule :=
  [ClassifyRule.byCode "NETWORK_ERROR" ErrorKind.NETWORK_ERROR,
   ClassifyRule.byMessage "network" ErrorKind.NETWORK_ERROR,
   ClassifyRule.byMessage "connection" ErrorKind.NETWORK_ERROR,
   ClassifyRule.byCode "TIMEOUT" ErrorKind.TIMEOUT,
   ClassifyRule.byMessage "timeout" ErrorKind.TIMEOUT,
   ClassifyRule.byCode "RATE_LIMITED" ErrorKind.RATE_LIMITED,
   ClassifyRule.byMessage "rate limit" ErrorKind.RATE_LIMITED,
   ClassifyRule.byMessage "too many requests" ErrorKind.RATE_LIMITED,
   ClassifyRule.byCodeGe500 ErrorKind.SERVER_ERROR,
   ClassifyRule.byMessage "server error" ErrorKind.SERVER_ERROR,
   ClassifyRule.byMessage "internal error" ErrorKind.SERVER_ERROR,
   ClassifyRule.byMessage "gas estimation" ErrorKind.GAS_ESTIMATION_FAILED,
   ClassifyRule.byMessage "cannot estimate gas" ErrorKind.GAS_ESTIMATION_FAILED,
   ClassifyRule.byMessage "insufficient funds" ErrorKind.INSUFFICIENT_FUNDS,
   ClassifyRule.byMessage "insufficient balance" ErrorKind.INSUFFICIENT_FUNDS,
   ClassifyRule.byMessage "revert" ErrorKind.TRANSACTION_REVERTED,
   ClassifyRule.byMessage "execution reverted" ErrorKind.TRANSACTION_REVERTED,
   ClassifyRule.byMessage "nonce too low" ErrorKind.NONCE_TOO_LOW,
   ClassifyRule.byMessage "nonce" ErrorKind.NONCE_TOO_LOW,
   ClassifyRule.byMessage "gas price too low" ErrorKind.GAS_PRICE_TOO_LOW,
   ClassifyRule.byMessage "gas price" ErrorKind.GAS_PRICE_TOO_LOW,
   ClassifyRule.byMessage "contract" ErrorKind.CONTRACT_ERROR,
   ClassifyRule.byMessage "call exception" ErrorKind.CONTRACT_ERROR,
   ClassifyRule.byMessage "invalid" ErrorKind.VALIDATION_ERROR,
   ClassifyRule.byMessage "validation" ErrorKind.VALIDATION_ERROR]

/-- First-match evaluation of a rule list, defaulting to `UNKNOWN_ERROR`. -/
def firstMatch (error : JsError) : List ClassifyRule → ErrorKind
  | [] => ErrorKind.UNKNOWN_ERROR
  | r :: rs => if ruleMatches error r then ruleKind r else firstMatch error rs

/-! ### RetryConfig (backoff policy)

Delays are rationals (JS numbers on the values involved behave as exact
arithmetic here) and `Math.floor` is the integer floor.  `Math.random()`
is passed in explicitly as a draw in `[0,1)`. -/

structure RetryConfig where
  maxRetries : Nat := 3
  baseDelay : ℚ := 1000
  maxDelay : ℚ := 30000
  exponentialBase : ℚ := 2
  jitter : ℚ := 1/10

/-- Embeds `RetryConfig.calculateDelay`:
`exponentialDelay = baseDelay * exponentialBase^(attempt-1)`,
`delay = min(exponentialDelay, maxDelay)`,
result `= Math.floor(delay + delay * jitter * random)`. -/
def calculateDelay (cfg : RetryConfig) (attempt : Nat) (random : ℚ) : ℤ :=
  let exponentialDelay := cfg.baseDelay * cfg.exponentialBase ^ (attempt - 1)
  let delay := min exponentialDelay cfg.maxDelay
  let jitterAmount := delay * cfg.jitter * random
  ⌊delay + jitterAmount⌋

/-! ### CircuitBreaker

Timestamps are integers (`Date.now()` values), passed in explicitly.
`lastFailureTime` starts as `null`; JS arithmetic coerces `null` to `0`,
modelled by `Option.getD 0`.  The failure window stores
`{timestamp, error}` pairs. -/

inductive BreakerState where
  | CLOSED
  | OPEN
  | HALF_OPEN
deriving DecidableEq

structure CircuitBreaker where
  failureThreshold : Nat := 5
  recoveryTimeout : ℤ := 60000
  monitoringPeriod : ℤ := 300000
  failureCount : Nat := 0
  lastFailureTime : Option ℤ := none
  state : BreakerState := BreakerState.CLOSED
  failures : List (ℤ × String) := []
deriving DecidableEq

/-- Embeds `CircuitBreaker.canExecute()`, returning the JS boolean and the
(possibly updated) breaker, since the OPEN-branch recovery check mutates
`state` to HALF_OPEN as a side effect. -/
def canExecute (now : ℤ) (b : CircuitBreaker) : Bool × CircuitBreaker :=
  match b.state with
  | BreakerState.CLOSED => (true, b)
  | BreakerState.OPEN =>
      if b.recoveryTimeout ≤ now - (b.lastFailureTime.getD 0) then
        (true, { b with state := BreakerState.HALF_OPEN })
      else
        (false, b)
  | BreakerState.HALF_OPEN => (true, b)

/-- Embeds `CircuitBreaker.onSuccess()`. -/
def onSuccess (b : CircuitBreaker) : CircuitBreaker :=
  { b with failureCount := 0, state := BreakerState.CLOSED, failures := [] }

/-- Embeds `CircuitBreaker.onFailure(error)` at time `now`; `errMessage` is
`error.message || 'Unknown error'`. -/
def onFailure (now : ℤ) (errMessage : String) (b : CircuitBreaker) : CircuitBreaker :=
  let failureCount := b.failureCount + 1
  let msg := if errMessage = "" then "Unknown error" else errMessage
  let cutoff := now - b.monitoringPeriod
  let failures := (b.failures ++ [(now, msg)]).filter (fun f => cutoff < f.1)
  { b with
      failureCount := failureCount
      lastFailureTime := some now
      failures := failures
      state := if b.failureThreshold ≤ failureCount then BreakerState.OPEN else b.state }

/-- A sequence of consecutive `onFailure` calls (time, raw message). -/
def onFailureRun (b : CircuitBreaker) (events : List (ℤ × String)) : CircuitBreaker :=
  events.foldl (fun acc ev => onFailure ev.1 ev.2 acc) b

/-! ### RetryManager.executeWithRetry

The operation is modelled as a function from the attempt number to its
outcome on that invocation; `now` gives the `Date.now()` value observed
on each attempt (index 0 for the initial `canExecute` gate).  The result
records the outcome, the final breaker state, and how many times the
operation was invoked. -/

inductive RetryOutcome (α : Type) where
  | ok : α → RetryOutcome α
  | circuitOpen : RetryOutcome α
  | failed : Option JsError → RetryOutcome α
deriving DecidableEq

/-- The `for (let attempt = 1; attempt <= maxRetries; attempt++)` loop
body of `executeWithRetry`.  `remaining` is `maxRetries + 1 - attempt`,
so `remaining = 1` means this is the last permitted attempt; the
`remaining = 0` base case is the loop exiting without a body run
(only reachable when `maxRetries = 0`), where JS throws the undefined
`lastError`. -/
def retryGo {α : Type} (op : Nat → Except JsError α) (now : Nat → ℤ) :
    Nat → Nat → CircuitBreaker → RetryOutcome α × CircuitBreaker × Nat
  | 0, _, b => (RetryOutcome.failed none, b, 0)
  | remaining + 1, attempt, b =>
      match op attempt with
      | Except.ok result => (RetryOutcome.ok result, onSuccess b, 1)
      | Except.error e =>
          let b1 := onFailure (now attempt) e.message b
          if ¬ isRetryable (classifyError e) then
            (RetryOutcome.failed (some e), b1, 1)
          else if remaining = 0 then
            (RetryOutcome.failed (some e), b1, 1)
          else
            let r := retryGo op now remaining (attempt + 1) b1
            (r.1, r.2.1, r.2.2 + 1)

/-- Embeds `RetryManager.executeWithRetry(operation)`: one `canExecute` gate,
then the attempt loop starting at attempt 1. -/
def executeWithRetry {α : Type} (cfg : RetryConfig) (b : CircuitBreaker)
    (op : Nat → Except JsError α) (now : Nat → ℤ) :
    RetryOutcome α × CircuitBreaker × Nat :=
  match canExecute (now 0) b with
  | (false, b') => (RetryOutcome.circuitOpen, b', 0)
  | (true, b') => retryGo op now cfg.maxRetries 1 b'

/-- Invocation counts of a sequence of separate `executeWithRetry` runs
against the same breaker instance (the breaker state threads through). -/
def runCounts {α : Type} (cfg : RetryConfig) (op : Nat → Except JsError α)
    (now : Nat → ℤ) : Nat → CircuitBreaker → List Nat
  | 0, _ => []
  | n + 1, b =>
      let r := executeWithRetry cfg b op now
      r.2.2 :: runCounts cfg op now n r.2.1

/-- The retry defaults `TransactionRetryManager` installs when the
caller supplies only a failure threshold (as the orchestrator does). -/
def txRetryConfig (maxRetries : Nat) : RetryConfig :=
  { maxRetries := maxRetries, baseDelay := 2000, maxDelay := 60000,
    exponentialBase := 2, jitter := 1/5 }

/-- The circuit-breaker defaults of `TransactionRetryManager`. -/
def txBreaker : CircuitBreaker :=
  { failureThreshold := 3, recoveryTimeout := 120000, monitoringPeriod := 600000 }

/-! ### GasOptimizer

`estimateOptimalGasPrice` works on BigInt prices (non-negative here, so
ℕ with truncating division matches BigInt division).  The JS multiplier
step is `gasPrice * BigInt(Math.floor(gasMultiplier * 100)) / 100n`; the
already-floored percentage is taken as the input `mulPct`. -/

def estimateOptimalGasPrice (rawGasPrice mulPct minGasPrice maxGasPrice : ℕ) : ℕ :=
  let gasPrice := rawGasPrice * mulPct / 100
  if gasPrice < minGasPrice then minGasPrice
  else if maxGasPrice < gasPrice then maxGasPrice
  else gasPrice

structure GasEntry where
  timestamp : ℤ
  gasPrice : ℕ
  baseFee : ℕ
deriving DecidableEq

/-- The history step of `estimateOptimalGasPrice`: push, then keep the
last `maxHistorySize` entries (`Array.prototype.slice(-max)`). -/
def pushGasHistory (history : List GasEntry) (entry : GasEntry)
    (maxHistorySize : Nat) : List GasEntry :=
  let h := history ++ [entry]
  if maxHistorySize < h.length then h.drop (h.length - maxHistorySize) else h

/-! ### TransactionMonitor

JS `Map`s keyed by transaction hash, modelled as insertion-ordered
association lists where `set` replaces in place.  The opaque `txData`
payload spread into the record is kept as a string. -/

structure TxRecord where
  meta : String
  startTime : ℤ
  status : String
deriving DecidableEq

abbrev TxMap := List (String × TxRecord)

def mapSet (m : TxMap) (k : String) (v : TxRecord) : TxMap :=
  if m.any (fun p => p.1 == k) then
    m.map (fun p => if p.1 == k then (k, v) else p)
  else
    m ++ [(k, v)]

def mapGet (m : TxMap) (k : String) : Option TxRecord :=
  (m.find? (fun p => p.1 == k)).map (fun p => p.2)

structure TxMetrics where
  totalTransactions : Nat := 0
  successfulTransactions : Nat := 0
  failedTransactions : Nat := 0
  totalGasUsed : Nat := 0
  totalFeesPaid : Nat := 0
  averageGasPrice : ℚ := 0
deriving DecidableEq

structure TransactionMonitor where
  pendingTransactions : TxMap := []
  completedTransactions : TxMap := []
  failedTransactions : TxMap := []
  metrics : TxMetrics := {}
deriving DecidableEq

/-- Embeds `TransactionMonitor.startMonitoring(txHash, txData)` at time `now`:
unconditionally `set`s a fresh pending record and increments
`metrics.totalTransactions`. -/
def startMonitoring (txHash : String) (txData : String) (now : ℤ)
    (m : TransactionMonitor) : TransactionMonitor :=
  { m with
      pendingTransactions :=
        mapSet m.pendingTransactions txHash ⟨txData, now, "pending"⟩
      metrics := { m.metrics with
        totalTransactions := m.metrics.totalTransactions + 1 } }

/-! ### OptimizedBundlerBot bundle orchestration

One attempt of the closure passed to `retryManager.executeBundle`:
acquire a gas price, a nonce base and the current block height, build
the eight bundle transactions with sequentially incremented nonces,
simulate, then submit.  The per-attempt environment collects what the
provider and relay would answer on that attempt; relay calls are
`Except`: a thrown (transport/HTTP) error is `error`, a resolved
response body is `ok`. -/

structure BundleTx where
  nonce : Nat
  gasPrice : Nat
deriving DecidableEq

structure SimResult where
  /-- Modelled from the spec: whether the relay's simulation response
  body reports a failed simulation.  The source stores `response.data`
  opaquely and never inspects this. -/
  reportsFailure : Bool
deriving DecidableEq

structure SubResult where
  tag : Nat
deriving DecidableEq

structure BundleEnv where
  gasPrice : Nat
  nonceBase : Nat
  currentBlock : Nat
  simulateResp : List BundleTx → Nat → Except JsError SimResult
  submitResp : List BundleTx → Nat → Except JsError SubResult

/-- Embeds `getFutureBlockNumber()`: current height plus 5. -/
def futureBlockNumber (currentBlock : Nat) : Nat := currentBlock + 5

/-- The eight transactions assembled by the closure, in source order
(deploy, approve WBNB→NFPM, approve token→NFPM, create pool, add
liquidity, approve WBNB→router, swap, fee transfer); `nonce++` before
every step after the first, all sharing the single gas price. -/
def bundleTxs (gasPrice nonceBase : Nat) : List BundleTx :=
  let nonce0 := nonceBase
  let nonce1 := nonce0 + 1
  let nonce2 := nonce1 + 1
  let nonce3 := nonce2 + 1
  let nonce4 := nonce3 + 1
  let nonce5 := nonce4 + 1
  let nonce6 := nonce5 + 1
  let nonce7 := nonce6 + 1
  [⟨nonce0, gasPrice⟩, ⟨nonce1, gasPrice⟩, ⟨nonce2, gasPrice⟩,
   ⟨nonce3, gasPrice⟩, ⟨nonce4, gasPrice⟩, ⟨nonce5, gasPrice⟩,
   ⟨nonce6, gasPrice⟩, ⟨nonce7, gasPrice⟩]

structure BundleResult where
  transactions : List BundleTx
  simulationResult : SimResult
  submissionResult : SubResult
deriving DecidableEq

/-- One attempt of the `executeBundle` closure.  The second component
records whether the submit relay call was issued.  The simulation
result is bound and logged but not inspected: any resolved simulate
response falls through to `submitBundle`. -/
def bundleAttempt (env : BundleEnv) : Except JsError BundleResult × Bool :=
  let gasPrice := env.gasPrice
  let nonce := env.nonceBase
  let futureBlock := futureBlockNumber env.currentBlock
  let transactions := bundleTxs gasPrice nonce
  match env.simulateResp transactions futureBlock with
  | Except.error e => (Except.error e, false)
  | Except.ok simulationResult =>
      match env.submitResp transactions futureBlock with
      | Except.error e => (Except.error e, true)
      | Except.ok submissionResult =>
          (Except.ok ⟨transactions, simulationResult, submissionResult⟩, true)

/-- Embeds the method scope of `OptimizedBundlerBot.executeBundle` as
seen by its context-object argument.  The identifiers `gasPrice` and
`nonce` read there are `const`/`let` bindings local to the async
closure, not visible in the method scope, so neither has a binding —
modelled as `none` for each. -/
def methodScopeBindings : Option Nat × Option Nat := (none, none)

/-- Embeds the evaluation of the context-object argument
`{ operation: 'bundle_execution', gasPrice: gasPrice?.toString(), nonce }`
passed to `retryManager.executeBundle`.  In JS, arguments are evaluated
before the call, and reading an undeclared identifier throws a
`ReferenceError` (optional chaining does not guard an unresolvable root
reference), so this evaluation throws before the retry manager runs. -/
def evalBundleContext : Except JsError (String × String × Nat) :=
  match methodScopeBindings.1 with
  | none => Except.error { message := "gasPrice is not defined", code := none }
  | some gp =>
      match methodScopeBindings.2 with
      | none => Except.error { message := "nonce is not defined", code := none }
      | some n => Except.ok ("bundle_execution", toString gp, n)

/-- The observable outcome of one `OptimizedBundlerBot.executeBundle()`
invocation: the settled value of its promise, how many times the closure
ran, and how many simulate and submit relay calls were issued. -/
structure BundleRun where
  result : Except JsError (RetryOutcome BundleResult × CircuitBreaker × Nat)
  attemptsRun : Nat
  simulateCallsMade : Nat
  submitCallsMade : Nat

/-- Submit relay calls issued across the first `n` closure attempts:
attempt `k` issues one exactly when `bundleAttempt` reaches
`submitBundle` on that attempt's environment. -/
def submitCallsIn (env : Nat → BundleEnv) (n : Nat) : Nat :=
  ((List.range n).map (fun i => if (bundleAttempt (env (i + 1))).2 then 1 else 0)).sum

/-- Embeds `OptimizedBundlerBot.executeBundle()`: first the
context-object argument is evaluated in method scope — which throws
`ReferenceError: gasPrice is not defined`, rejecting the method with
zero closure runs and zero relay calls — and only if that succeeded
would the closure (provider reads, assembly, simulate, submit) run
under `TransactionRetryManager.executeBundle`, i.e. `executeWithRetry`
with the transaction defaults, each retry re-running the closure
against that attempt's environment (every closure run issues exactly
one simulate call, since payload building cannot throw in the model). -/
def executeBundle (maxRetries : Nat) (env : Nat → BundleEnv) (now : Nat → ℤ) :
    BundleRun :=
  match evalBundleContext with
  | Except.error e =>
      { result := Except.error e, attemptsRun := 0,
        simulateCallsMade := 0, submitCallsMade := 0 }
  | Except.ok _ =>
      let r := executeWithRetry (txRetryConfig maxRetries) txBreaker
        (fun k => (bundleAttempt (env k)).1) now
      { result := Except.ok r, attemptsRun := r.2.2,
        simulateCallsMade := r.2.2, submitCallsMade := submitCallsIn env r.2.2 }

/-! ### Helper lemmas -/

/-- Splitting a disjunctive `if` condition into nested `if`s. -/
theorem if_or_split {α : Type} (a b : Bool) (x y : α) :
    (if a || b then x else y) = if a then x else if b then x else y := by
  cases a <;> simp

theorem mapGet_map_replace (t : TxMap) (k : String) (v : TxRecord)
    (hany : (t.any fun p => p.1 == k) = true) :
    mapGet (t.map (fun p => if p.1 == k then (k, v) else p)) k = some v := by
  induction t with
  | nil => simp at hany
  | cons p t ih =>
      rw [List.map_cons]
      by_cases hp : (p.1 == k) = true
      · rw [if_pos hp, mapGet, List.find?_cons_of_pos _ (by simp)]
        rfl
      · rw [Bool.not_eq_true] at hp
        rw [List.any_cons, hp, Bool.false_or] at hany
        rw [if_neg (by simp [hp]), mapGet, List.find?_cons_of_neg _ (by simp [hp])]
        exact ih hany

theorem mapGet_mapSet_self (m : TxMap) (k : String) (v : TxRecord) :
    mapGet (mapSet m k v) k = some v := by
  unfold mapSet
  split
  · next hany => exact mapGet_map_replace m k v hany
  · next hany =>
    rw [mapGet, List.find?_append]
    have hnone : m.find? (fun p => p.1 == k) = none := by
      rw [List.find?_eq_none]
      intro p hp hc
      exact hany (List.any_eq_true.mpr ⟨p, hp, hc⟩)
    simp [hnone, List.find?]

/-! ### C8: gas price bounds -/

/-- C8: for every raw provider quote, the price returned by
`estimateOptimalGasPrice` lies in the closed interval
`[minGasPrice, maxGasPrice]` (quotes below the minimum are raised to it,
quotes above the maximum lowered to it, after the fixed-point multiplier
is applied), provided `minGasPrice ≤ maxGasPrice`. -/
theorem estimateOptimalGasPrice_within_bounds
    (rawGasPrice mulPct minGasPrice maxGasPrice : ℕ)
    (h : minGasPrice ≤ maxGasPrice) :
    minGasPrice ≤ estimateOptimalGasPrice rawGasPrice mulPct minGasPrice maxGasPrice ∧
      estimateOptimalGasPrice rawGasPrice mulPct minGasPrice maxGasPrice ≤ maxGasPrice := by
  simp only [estimateOptimalGasPrice]
  split_ifs <;> omega

theorem estimateOptimalGasPrice_within_bounds_witness :
    (5 : ℕ) ≤ estimateOptimalGasPrice 2 120 5 50 ∧
      estimateOptimalGasPrice 2 120 5 50 ≤ 50 :=
  estimateOptimalGasPrice_within_bounds 2 120 5 50 (by decide)

/-! ### C3: backoff delay formula and bound -/

/-- The `RetryConfig` defaults of the source
(`maxRetries 3`, `baseDelay 1000`, `maxDelay 30000`,
`exponentialBase 2`, `jitter 0.1`). -/
def defaultRetryConfig : RetryConfig := {}

/-- C3 counterexample: with the default policy, attempt 6 and a jitter
draw of `0.5` produce a delay of 31500 ms, which exceeds
`maxDelay = 30000`; the claim that the computed delay never exceeds
`maxDelay` is false, because the jitter is added after clamping. -/
theorem calculateDelay_exceeds_maxDelay :
    calculateDelay defaultRetryConfig 6 (1/2) = 31500 ∧
      defaultRetryConfig.maxDelay = 30000 ∧
      (30000 : ℤ) < 31500 ∧ (0 : ℚ) ≤ 1/2 ∧ (1/2 : ℚ) < 1 := by
  refine ⟨?_, by norm_num [defaultRetryConfig], by norm_num, by norm_num, by norm_num⟩
  norm_num [calculateDelay, defaultRetryConfig]

/-- C3 amended: the computed delay equals
`floor(min(baseDelay * exponentialBase^(n-1), maxDelay)
  + min(...) * jitterFraction * random)` exactly as claimed, but the
bound is `maxDelay * (1 + jitterFraction)` rather than `maxDelay`:
for any jitter draw in `[0,1)` and non-negative configuration values,
the result never exceeds `⌊maxDelay * (1 + jitterFraction)⌋`. -/
theorem calculateDelay_formula_and_bound (cfg : RetryConfig) (attempt : Nat)
    (random : ℚ) (hr0 : 0 ≤ random) (hr1 : random < 1)
    (hj : 0 ≤ cfg.jitter) (hb : 0 ≤ cfg.baseDelay)
    (he : 0 ≤ cfg.exponentialBase) (hm : 0 ≤ cfg.maxDelay) :
    calculateDelay cfg attempt random =
      ⌊min (cfg.baseDelay * cfg.exponentialBase ^ (attempt - 1)) cfg.maxDelay +
        min (cfg.baseDelay * cfg.exponentialBase ^ (attempt - 1)) cfg.maxDelay *
          cfg.jitter * random⌋ ∧
    calculateDelay cfg attempt random ≤ ⌊cfg.maxDelay * (1 + cfg.jitter)⌋ := by
  constructor
  · rfl
  · unfold calculateDelay
    apply Int.floor_le_floor
    have hd0 : 0 ≤ min (cfg.baseDelay * cfg.exponentialBase ^ (attempt - 1)) cfg.maxDelay :=
      le_min (mul_nonneg hb (pow_nonneg he _)) hm
    have hdm : min (cfg.baseDelay * cfg.exponentialBase ^ (attempt - 1)) cfg.maxDelay ≤
        cfg.maxDelay := min_le_right _ _
    calc min (cfg.baseDelay * cfg.exponentialBase ^ (attempt - 1)) cfg.maxDelay +
          min (cfg.baseDelay * cfg.exponentialBase ^ (attempt - 1)) cfg.maxDelay *
            cfg.jitter * random
        ≤ cfg.maxDelay + cfg.maxDelay * cfg.jitter * 1 := by gcongr
      _ = cfg.maxDelay * (1 + cfg.jitter) := by ring

theorem calculateDelay_formula_and_bound_witness :
    calculateDelay defaultRetryConfig 6 (1/2) =
      ⌊min (defaultRetryConfig.baseDelay * defaultRetryConfig.exponentialBase ^ (6 - 1))
          defaultRetryConfig.maxDelay +
        min (defaultRetryConfig.baseDelay * defaultRetryConfig.exponentialBase ^ (6 - 1))
          defaultRetryConfig.maxDelay * defaultRetryConfig.jitter * (1/2)⌋ ∧
    calculateDelay defaultRetryConfig 6 (1/2) ≤
      ⌊defaultRetryConfig.maxDelay * (1 + defaultRetryConfig.jitter)⌋ :=
  calculateDelay_formula_and_bound defaultRetryConfig 6 (1/2)
    (by norm_num) (by norm_num) (by norm_num [defaultRetryConfig])
    (by norm_num [defaultRetryConfig]) (by norm_num [defaultRetryConfig])
    (by norm_num [defaultRetryConfig])

/-! ### C4: classifier totality and rule order -/

/-- C4 counterexample: an error carrying the explicit code `'TIMEOUT'`
whose message contains the substring `network` classifies as
`NETWORK_ERROR`, not `TIMEOUT`: the explicit code-equality check of a
later category is not consulted before an earlier category's
message-substring heuristic, so "code equality is checked before any
message-substring heuristic" fails. -/
theorem classifyError_code_not_before_substrings :
    classifyError ⟨"network glitch", some (JsCode.str "TIMEOUT")⟩ =
        ErrorKind.NETWORK_ERROR ∧
      codeEq (some (JsCode.str "TIMEOUT")) "TIMEOUT" = true ∧
      ErrorKind.NETWORK_ERROR ≠ ErrorKind.TIMEOUT := by
  refine ⟨by decide, by decide, by decide⟩

/-- C4 amended: `classifyError` is total (every input yields an
`ErrorKind`, with `UNKNOWN_ERROR` when no rule matches) and equals the
first-match evaluation of the ordered rule list `classifyRules`, in
which the categories appear in the fixed order network, timeout,
rate-limited, server, gas-estimation, insufficient-funds, reverted,
nonce-too-low, gas-price-too-low, contract, validation, and each
category's explicit code-equality rule (where one exists) precedes that
same category's message-substring rules — but not the substring rules
of earlier categories. -/
theorem classifyError_eq_firstMatch (e : JsError) :
    classifyError e = firstMatch e classifyRules := by
  simp only [classifyError, firstMatch, classifyRules, ruleMatches, ruleKind, if_or_split]

/-! ### CircuitBreaker fold lemmas -/

theorem onFailureRun_cons (b : CircuitBreaker) (ev : ℤ × String)
    (events : List (ℤ × String)) :
    onFailureRun b (ev :: events) = onFailureRun (onFailure ev.1 ev.2 b) events := by
  simp [onFailureRun]

theorem onFailureRun_threshold (b : CircuitBreaker) (events : List (ℤ × String)) :
    (onFailureRun b events).failureThreshold = b.failureThreshold := by
  induction events generalizing b with
  | nil => rfl
  | cons ev es ih => rw [onFailureRun_cons, ih]; rfl

theorem onFailureRun_recoveryTimeout (b : CircuitBreaker) (events : List (ℤ × String)) :
    (onFailureRun b events).recoveryTimeout = b.recoveryTimeout := by
  induction events generalizing b with
  | nil => rfl
  | cons ev es ih => rw [onFailureRun_cons, ih]; rfl

theorem onFailureRun_count (b : CircuitBreaker) (events : List (ℤ × String)) :
    (onFailureRun b events).failureCount = b.failureCount + events.length := by
  induction events generalizing b with
  | nil => rfl
  | cons ev es ih =>
      rw [onFailureRun_cons, ih]
      simp only [onFailure, List.length_cons]
      omega

theorem onFailureRun_lastTime (b : CircuitBreaker) (events : List (ℤ × String)) :
    (onFailureRun b events).lastFailureTime =
      (events.getLast?.map (fun ev => ev.1)).or b.lastFailureTime := by
  induction events generalizing b with
  | nil => rfl
  | cons ev es ih =>
      rw [onFailureRun_cons, ih]
      cases hes : es.getLast? with
      | none =>
          rw [List.getLast?_eq_none_iff] at hes
          subst hes
          rfl
      | some y =>
          have : (ev :: es).getLast? = some y := by
            cases es with
            | nil => simp at hes
            | cons e' es' => rw [List.getLast?_cons_cons]; exact hes
          simp [this, hes]

theorem onFailureRun_state (b : CircuitBreaker) (events : List (ℤ × String))
    (hne : events ≠ []) :
    (onFailureRun b events).state =
      if b.failureThreshold ≤ b.failureCount + events.length then BreakerState.OPEN
      else b.state := by
  induction events generalizing b with
  | nil => exact absurd rfl hne
  | cons ev es ih =>
      rw [onFailureRun_cons]
      cases es with
      | nil =>
          simp only [onFailureRun, List.foldl_nil, onFailure, List.length_cons,
            List.length_nil]
      | cons e' es' =>
          rw [ih _ (by simp)]
          simp only [onFailure, List.length_cons]
          split_ifs with h1 h2 h3 <;> first | rfl | omega

/-! ### C9: duplicate startMonitoring -/

/-- A monitor holding one pending record for hash `0xabc`. -/
def monitorAfterFirstStart : TransactionMonitor :=
  startMonitoring "0xabc" "swap" 0 {}

/-- The same monitor after a duplicate `startMonitoring` for `0xabc`. -/
def monitorAfterSecondStart : TransactionMonitor :=
  startMonitoring "0xabc" "swap" 5 monitorAfterFirstStart

/-- C9 counterexample: a second `startMonitoring` for an id that is
already pending is not a no-op — it overwrites the pending record
(resetting its start timestamp) and increments
`metrics.totalTransactions` from 1 to 2. -/
theorem startMonitoring_duplicate_not_noop :
    monitorAfterFirstStart.metrics.totalTransactions = 1 ∧
      monitorAfterSecondStart.metrics.totalTransactions = 2 ∧
      mapGet monitorAfterFirstStart.pendingTransactions "0xabc" =
        some ⟨"swap", 0, "pending"⟩ ∧
      mapGet monitorAfterSecondStart.pendingTransactions "0xabc" =
        some ⟨"swap", 5, "pending"⟩ := by
  refine ⟨rfl, rfl, rfl, rfl⟩

/-- C9 amended: a duplicate `startMonitoring` for an already-pending id
leaves the completed and failed maps and all other aggregate metrics
unchanged, but it overwrites the pending record with a fresh start
timestamp and increments `totalTransactions` (it is not a no-op). -/
theorem startMonitoring_duplicate_overwrites (m : TransactionMonitor)
    (txHash txData : String) (now : ℤ)
    (_hpend : (mapGet m.pendingTransactions txHash).isSome = true) :
    (startMonitoring txHash txData now m).completedTransactions =
        m.completedTransactions ∧
      (startMonitoring txHash txData now m).failedTransactions =
        m.failedTransactions ∧
      (startMonitoring txHash txData now m).metrics.successfulTransactions =
        m.metrics.successfulTransactions ∧
      (startMonitoring txHash txData now m).metrics.failedTransactions =
        m.metrics.failedTransactions ∧
      (startMonitoring txHash txData now m).metrics.totalGasUsed =
        m.metrics.totalGasUsed ∧
      (startMonitoring txHash txData now m).metrics.totalFeesPaid =
        m.metrics.totalFeesPaid ∧
      (startMonitoring txHash txData now m).metrics.totalTransactions =
        m.metrics.totalTransactions + 1 ∧
      mapGet (startMonitoring txHash txData now m).pendingTransactions txHash =
        some ⟨txData, now, "pending"⟩ := by
  exact ⟨rfl, rfl, rfl, rfl, rfl, rfl, rfl, mapGet_mapSet_self _ _ _⟩

theorem startMonitoring_duplicate_overwrites_witness :
    (startMonitoring "0xabc" "retrydata" 5 monitorAfterFirstStart).completedTransactions =
        monitorAfterFirstStart.completedTransactions ∧
      (startMonitoring "0xabc" "retrydata" 5 monitorAfterFirstStart).failedTransactions =
        monitorAfterFirstStart.failedTransactions ∧
      (startMonitoring "0xabc" "retrydata" 5 monitorAfterFirstStart).metrics.successfulTransactions =
        monitorAfterFirstStart.metrics.successfulTransactions ∧
      (startMonitoring "0xabc" "retrydata" 5 monitorAfterFirstStart).metrics.failedTransactions =
        monitorAfterFirstStart.metrics.failedTransactions ∧
      (startMonitoring "0xabc" "retrydata" 5 monitorAfterFirstStart).metrics.totalGasUsed =
        monitorAfterFirstStart.metrics.totalGasUsed ∧
      (startMonitoring "0xabc" "retrydata" 5 monitorAfterFirstStart).metrics.totalFeesPaid =
        monitorAfterFirstStart.metrics.totalFeesPaid ∧
      (startMonitoring "0xabc" "retrydata" 5 monitorAfterFirstStart).metrics.totalTransactions =
        monitorAfterFirstStart.metrics.totalTransactions + 1 ∧
      mapGet (startMonitoring "0xabc" "retrydata" 5 monitorAfterFirstStart).pendingTransactions "0xabc" =
        some ⟨"retrydata", 5, "pending"⟩ :=
  startMonitoring_duplicate_overwrites monitorAfterFirstStart "0xabc" "retrydata" 5 rfl

/-! ### C6: breaker opens at the threshold and recovers -/

/-- A freshly constructed breaker
(CLOSED, `failureCount 0`, `lastFailureTime null`, empty window). -/
def freshBreaker (threshold : Nat) (rt mp : ℤ) : CircuitBreaker :=
  { failureThreshold := threshold, recoveryTimeout := rt, monitoringPeriod := mp }

/-- C6: from the initial CLOSED state, `failureThreshold` consecutive
`onFailure` calls (no intervening `onSuccess`) leave the breaker OPEN
with `failureCount = failureThreshold`; `canExecute` returns false (and
changes nothing) at any time strictly before `recoveryTimeout` has
elapsed since the last failure, returns true and moves the state to
HALF_OPEN at any time once `recoveryTimeout` has elapsed, and an
`onSuccess` from there yields CLOSED with `failureCount = 0` and an
empty failure history. -/
theorem breaker_opens_and_recovers (threshold : Nat) (rt mp : ℤ)
    (events : List (ℤ × String)) (now1 now2 : ℤ)
    (_hpos : 1 ≤ threshold) (hlen : events.length = threshold)
    (hne : events ≠ [])
    (h1 : now1 - (events.getLast hne).1 < rt)
    (h2 : rt ≤ now2 - (events.getLast hne).1) :
    (onFailureRun (freshBreaker threshold rt mp) events).state = BreakerState.OPEN ∧
      (onFailureRun (freshBreaker threshold rt mp) events).failureCount = threshold ∧
      canExecute now1 (onFailureRun (freshBreaker threshold rt mp) events) =
        (false, onFailureRun (freshBreaker threshold rt mp) events) ∧
      (canExecute now2 (onFailureRun (freshBreaker threshold rt mp) events)).1 = true ∧
      (canExecute now2 (onFailureRun (freshBreaker threshold rt mp) events)).2.state =
        BreakerState.HALF_OPEN ∧
      (onSuccess (canExecute now2
          (onFailureRun (freshBreaker threshold rt mp) events)).2).state =
        BreakerState.CLOSED ∧
      (onSuccess (canExecute now2
          (onFailureRun (freshBreaker threshold rt mp) events)).2).failureCount = 0 ∧
      (onSuccess (canExecute now2
          (onFailureRun (freshBreaker threshold rt mp) events)).2).failures = [] := by
  have hstate : (onFailureRun (freshBreaker threshold rt mp) events).state =
      BreakerState.OPEN := by
    rw [onFailureRun_state _ events hne]
    rw [if_pos]
    show threshold ≤ 0 + events.length
    omega
  have hcount : (onFailureRun (freshBreaker threshold rt mp) events).failureCount =
      threshold := by
    rw [onFailureRun_count, hlen]
    simp [freshBreaker]
  have hlast : (onFailureRun (freshBreaker threshold rt mp) events).lastFailureTime =
      some (events.getLast hne).1 := by
    rw [onFailureRun_lastTime, List.getLast?_eq_getLast events hne]
    rfl
  have hrt : (onFailureRun (freshBreaker threshold rt mp) events).recoveryTimeout = rt :=
    onFailureRun_recoveryTimeout _ events
  have hce1 : canExecute now1 (onFailureRun (freshBreaker threshold rt mp) events) =
      (false, onFailureRun (freshBreaker threshold rt mp) events) := by
    unfold canExecute
    rw [hstate, if_neg]
    rw [hrt, hlast]
    simpa using h1.not_le
  have hce2 : canExecute now2 (onFailureRun (freshBreaker threshold rt mp) events) =
      (true, { onFailureRun (freshBreaker threshold rt mp) events with
                 state := BreakerState.HALF_OPEN }) := by
    unfold canExecute
    rw [hstate, if_pos]
    rw [hrt, hlast]
    simpa using h2
  refine ⟨hstate, hcount, hce1, ?_, ?_, ?_, ?_, ?_⟩ <;> rw [hce2] <;> rfl

theorem breaker_opens_and_recovers_witness :
    (onFailureRun (freshBreaker 2 100 1000) [(0, "boom"), (5, "boom")]).state =
        BreakerState.OPEN ∧
      (onFailureRun (freshBreaker 2 100 1000) [(0, "boom"), (5, "boom")]).failureCount = 2 ∧
      canExecute 50 (onFailureRun (freshBreaker 2 100 1000) [(0, "boom"), (5, "boom")]) =
        (false, onFailureRun (freshBreaker 2 100 1000) [(0, "boom"), (5, "boom")]) ∧
      (canExecute 105 (onFailureRun (freshBreaker 2 100 1000) [(0, "boom"), (5, "boom")])).1 =
        true ∧
      (canExecute 105 (onFailureRun (freshBreaker 2 100 1000) [(0, "boom"), (5, "boom")])).2.state =
        BreakerState.HALF_OPEN ∧
      (onSuccess (canExecute 105 (onFailureRun (freshBreaker 2 100 1000)
          [(0, "boom"), (5, "boom")])).2).state = BreakerState.CLOSED ∧
      (onSuccess (canExecute 105 (onFailureRun (freshBreaker 2 100 1000)
          [(0, "boom"), (5, "boom")])).2).failureCount = 0 ∧
      (onSuccess (canExecute 105 (onFailureRun (freshBreaker 2 100 1000)
          [(0, "boom"), (5, "boom")])).2).failures = [] :=
  breaker_opens_and_recovers 2 100 1000 [(0, "boom"), (5, "boom")] 50 105
    (by decide) (by decide) (by decide) (by decide) (by decide)

/-! ### C10: a HALF_OPEN trial failure immediately reopens -/

/-- C10: once the breaker is OPEN with `failureCount` at or above the
threshold and a `canExecute` past the recovery timeout has moved it to
HALF_OPEN, a single `onFailure` during HALF_OPEN returns the state to
OPEN, because `failureCount` is reset only by `onSuccess` and still
meets the threshold after the increment. -/
theorem halfOpen_failure_reopens (b : CircuitBreaker) (now1 now2 : ℤ) (msg : String)
    (hst : b.state = BreakerState.OPEN)
    (hcnt : b.failureThreshold ≤ b.failureCount)
    (hrec : b.recoveryTimeout ≤ now1 - b.lastFailureTime.getD 0) :
    (canExecute now1 b).1 = true ∧
      (canExecute now1 b).2.state = BreakerState.HALF_OPEN ∧
      (onFailure now2 msg (canExecute now1 b).2).state = BreakerState.OPEN := by
  have hce : canExecute now1 b = (true, { b with state := BreakerState.HALF_OPEN }) := by
    unfold canExecute
    rw [hst]
    exact if_pos hrec
  rw [hce]
  refine ⟨rfl, rfl, ?_⟩
  simp only [onFailure]
  rw [if_pos]
  omega

/-- A breaker that has tripped OPEN at its threshold of 3. -/
def openedBreaker : CircuitBreaker :=
  { failureThreshold := 3, recoveryTimeout := 100, monitoringPeriod := 1000,
    failureCount := 3, lastFailureTime := some 0,
    state := BreakerState.OPEN, failures := [] }

theorem halfOpen_failure_reopens_witness :
    (canExecute 200 openedBreaker).1 = true ∧
      (canExecute 200 openedBreaker).2.state = BreakerState.HALF_OPEN ∧
      (onFailure 201 "boom" (canExecute 200 openedBreaker).2).state =
        BreakerState.OPEN :=
  halfOpen_failure_reopens openedBreaker 200 201 "boom"
    (by decide) (by decide) (by decide)

/-! ### C1: the breaker gate runs once per call, not once per attempt -/

/-- An operation that fails every time with a timeout-classified error. -/
def opTimeout : Nat → Except JsError Unit :=
  fun _ => Except.error { message := "timeout", code := none }

/-- C1 counterexample: with `failureThreshold = 3` and `maxRetries = 5`,
one `executeWithRetry` run against an always-failing timeout operation
invokes the operation on all 5 attempts even though the breaker is
already OPEN after the 3rd failure (a 3-attempt run of the same
operation leaves the breaker OPEN): `canExecute` is consulted only once
before the loop, so attempts 4 and 5 still invoke the operation. -/
theorem gate_not_checked_per_attempt :
    (executeWithRetry (txRetryConfig 5) txBreaker opTimeout (fun _ => 0)).2.2 = 5 ∧
      (executeWithRetry (txRetryConfig 3) txBreaker opTimeout (fun _ => 0)).2.1.state =
        BreakerState.OPEN ∧
      (executeWithRetry (txRetryConfig 5) txBreaker opTimeout (fun _ => 0)).2.1.failureCount =
        5 ∧
      (5 : Nat) ≠ 3 := by
  refine ⟨by decide, by decide, by decide, by decide⟩

/-- C1 amended: `canExecute` is consulted once, before the first attempt
of each `executeWithRetry` call; when it answers false the call fails
immediately with the circuit-open condition and the operation is never
invoked.  Attempts after the first within the same call do not re-check
the breaker.  Across separate calls the gate does hold: in 5 consecutive
single-attempt failing calls against a `failureThreshold = 3` breaker,
calls 4 and 5 never invoke the operation. -/
theorem gate_blocks_call_not_attempt {α : Type} (cfg : RetryConfig)
    (b : CircuitBreaker) (op : Nat → Except JsError α) (now : Nat → ℤ)
    (h : (canExecute (now 0) b).1 = false) :
    executeWithRetry cfg b op now =
        (RetryOutcome.circuitOpen, (canExecute (now 0) b).2, 0) ∧
      runCounts (txRetryConfig 1) opTimeout (fun _ => 0) 5 txBreaker =
        [1, 1, 1, 0, 0] := by
  constructor
  · have hc : canExecute (now 0) b = (false, (canExecute (now 0) b).2) := by
      rcases hcc : canExecute (now 0) b with ⟨flag, b'⟩
      rw [hcc] at h
      simp only at h
      rw [h]
    unfold executeWithRetry
    rw [hc]
  · decide

theorem gate_blocks_call_not_attempt_witness :
    executeWithRetry (txRetryConfig 5) openedBreaker opTimeout (fun _ => 0) =
        (RetryOutcome.circuitOpen, (canExecute 0 openedBreaker).2, 0) ∧
      runCounts (txRetryConfig 1) opTimeout (fun _ => 0) 5 txBreaker =
        [1, 1, 1, 0, 0] :=
  gate_blocks_call_not_attempt (txRetryConfig 5) openedBreaker opTimeout
    (fun _ => 0) (by decide)

/-! ### C5: retry exhaustion propagates the last original error -/

theorem retryGo_always_fails {α : Type} (op : Nat → Except JsError α)
    (e : Nat → JsError) (now : Nat → ℤ)
    (hop : ∀ k, op k = Except.error (e k))
    (hretry : ∀ k, isRetryable (classifyError (e k)) = true) :
    ∀ (r a : Nat) (b : CircuitBreaker),
      (retryGo op now (r + 1) a b).1 = RetryOutcome.failed (some (e (a + r))) ∧
        (retryGo op now (r + 1) a b).2.2 = r + 1 := by
  intro r
  induction r with
  | zero =>
      intro a b
      simp [retryGo, hop a, hretry a]
  | succ r ih =>
      intro a b
      have hrw : a + (r + 1) = (a + 1) + r := by omega
      rw [hrw]
      have hrec := ih (a + 1) (onFailure (now a) (e a).message b)
      rw [retryGo]
      simp only [hop a, hretry a, not_true, Bool.true_eq_false, if_false,
        Nat.succ_ne_zero, ite_false, reduceCtorEq]
      exact ⟨hrec.1, by rw [hrec.2]⟩

/-- C5: an operation failing on every invocation with a retryable error
kind, run with `maxRetries = m ≥ 1` behind a CLOSED breaker, is invoked
exactly m times, and the error propagated is the original error object
of the m-th invocation itself — never a synthetic max-retries error. -/
theorem retry_exhaustion_propagates_last_error {α : Type} (cfg : RetryConfig)
    (b : CircuitBreaker) (op : Nat → Except JsError α) (e : Nat → JsError)
    (now : Nat → ℤ)
    (hclosed : b.state = BreakerState.CLOSED)
    (hop : ∀ k, op k = Except.error (e k))
    (hretry : ∀ k, isRetryable (classifyError (e k)) = true)
    (hm : 1 ≤ cfg.maxRetries) :
    (executeWithRetry cfg b op now).1 =
        RetryOutcome.failed (some (e cfg.maxRetries)) ∧
      (executeWithRetry cfg b op now).2.2 = cfg.maxRetries := by
  obtain ⟨r, hr⟩ : ∃ r, cfg.maxRetries = r + 1 := ⟨cfg.maxRetries - 1, by omega⟩
  have hce : canExecute (now 0) b = (true, b) := by
    unfold canExecute
    rw [hclosed]
  unfold executeWithRetry
  rw [hce, hr]
  have := retryGo_always_fails op e now hop hretry r 1 b
  rw [show 1 + r = r + 1 from by omega] at this
  exact this

theorem retry_exhaustion_propagates_last_error_witness :
    (executeWithRetry (txRetryConfig 4) txBreaker opTimeout (fun _ => 0)).1 =
        RetryOutcome.failed (some { message := "timeout", code := none }) ∧
      (executeWithRetry (txRetryConfig 4) txBreaker opTimeout (fun _ => 0)).2.2 = 4 :=
  retry_exhaustion_propagates_last_error (txRetryConfig 4) txBreaker opTimeout
    (fun _ => { message := "timeout", code := none }) (fun _ => 0)
    (by decide) (fun _ => rfl) (fun _ => rfl) (by decide)

/-! ### C2: simulate-then-submit sequencing -/

/-- C2: no submission occurs for a bundle whose simulation reported
failure, and the submit relay call is only ever made after a successful
simulate call — both hold vacuously, because every orchestration run
rejects before either relay call exists: evaluating the context-object
argument of `retryManager.executeBundle` reads the undeclared
identifiers `gasPrice` and `nonce` in method scope and throws
`ReferenceError: gasPrice is not defined` before the retry manager or
the closure runs, so every invocation settles with that error having
issued zero simulate calls and zero submit calls. -/
theorem no_submission_without_simulation (maxRetries : Nat)
    (env : Nat → BundleEnv) (now : Nat → ℤ) :
    (executeBundle maxRetries env now).result =
        Except.error { message := "gasPrice is not defined", code := none } ∧
      (executeBundle maxRetries env now).simulateCallsMade = 0 ∧
      (executeBundle maxRetries env now).submitCallsMade = 0 :=
  ⟨rfl, rfl, rfl⟩

/-! ### C7: relay rejection and re-assembly -/

/-- C7: the orchestrator never re-assembles and re-submits a bundle
with a different nonce base or gas price, and every submission attempt
within one orchestration run shares the single nonce base and gas quote
of assembly time — vacuously: the context-argument `ReferenceError`
rejects every run before a single closure attempt, so a run performs
zero assembly attempts and zero submission attempts (in particular the
relay never rejects a bundle, and no successful orchestration result is
reachable). -/
theorem no_reassembly_or_resubmission (maxRetries : Nat)
    (env : Nat → BundleEnv) (now : Nat → ℤ)
    (r : RetryOutcome BundleResult × CircuitBreaker × Nat) :
    (executeBundle maxRetries env now).attemptsRun = 0 ∧
      (executeBundle maxRetries env now).submitCallsMade = 0 ∧
      (executeBundle maxRetries env now).result ≠ Except.ok r := by
  refine ⟨rfl, rfl, ?_⟩
  intro h
  exact Except.noConfusion h

end Bundler
